import Mathlib

/-!
Shallow embedding of the tic-tac-toe network server
(`Tic Tac Toe Networks/server.py`).

Connections (Python socket objects) are modelled as natural numbers.
Python dictionaries keyed by socket are modelled as insertion-ordered
association lists, matching Python 3.7+ dict ordering semantics on which
the source relies (`list(self.players.keys())[0]` is the first-joined
player).  Outbound `sendall` calls are collected into a message list of
(destination socket, wire text) pairs, in the order the source performs
them.  Uncaught Python exceptions (ValueError from `int(...)`,
IndexError / KeyError from subscripts) are modelled as `Except` errors:
the event loop in `start` catches only `KeyboardInterrupt`, and
`handle_client` catches only `ConnectionResetError`, so any such
exception propagates and aborts the server process.
-/

deriving instance DecidableEq for Except

/-- A Python exception escaping the handler, aborting the server. -/
inductive PyErr where
  | valueError
  | indexError
  | keyError
  deriving DecidableEq, Repr

/-- One `sendall` call: destination socket id and the wire text sent. -/
abbrev Msg := Nat × String

/-- A nonempty string of decimal digits, as a number. -/
def digits? (cs : List Char) : Option Nat :=
  if cs ≠ [] ∧ cs.all Char.isDigit then
    some (cs.foldl (fun a c => a * 10 + (c.toNat - 48)) 0)
  else none

/-- Python `int(s)` for the strings this protocol sees: optional sign followed by
decimal digits; anything else raises `ValueError` (`none`). -/
def pyInt? (s : String) : Option Int :=
  match s.toList with
  | '-' :: rest => (digits? rest).map (fun n => -(n : Int))
  | '+' :: rest => (digits? rest).map (fun n => (n : Int))
  | cs => (digits? cs).map (fun n => (n : Int))

/-- Auxiliary loop of `pySplit`. -/
def pySplitAux (sep : Char) : List Char → List Char → List String
  | [], acc => [String.mk acc.reverse]
  | c :: rest, acc =>
      if c = sep then String.mk acc.reverse :: pySplitAux sep rest []
      else pySplitAux sep rest (c :: acc)

/-- Python `s.split(sep)` with an explicit one-character separator. -/
def pySplit (s : String) (sep : Char) : List String :=
  pySplitAux sep s.toList []

/-- Python `s.strip()`: drop leading and trailing whitespace. -/
def pyStrip (s : String) : String :=
  String.mk (((s.toList.dropWhile Char.isWhitespace).reverse.dropWhile Char.isWhitespace).reverse)

/-- Python `s.upper()` for the ASCII strings of this protocol. -/
def pyUpper (s : String) : String :=
  String.mk (s.toList.map Char.toUpper)

/-- Insertion step of `sorted`. -/
def pySortedInsert (x : String) : List String → List String
  | [] => [x]
  | y :: ys => if x ≤ y then x :: y :: ys else y :: pySortedInsert x ys

/-- Python `sorted(l)`: the list in ascending lexicographic order. -/
def pySorted : List String → List String
  | [] => []
  | x :: xs => pySortedInsert x (pySorted xs)

/-- Python list item assignment `l[i] = c` with int index: negative indices
count from the end, out-of-range raises `IndexError` (`none`). -/
def pySet? (l : List Char) (i : Int) (c : Char) : Option (List Char) :=
  let j : Int := if i < 0 then i + l.length else i
  if 0 ≤ j ∧ j < (l.length : Int) then some (l.set j.toNat c) else none

/-- Ordered-dict lookup `d[k]` over an association list. -/
def dictGet? {β : Type} (d : List (Nat × β)) (k : Nat) : Option β :=
  (d.find? (fun p => p.1 == k)).map Prod.snd

/-- Ordered-dict assignment `d[k] = v`: update in place if the key exists,
append otherwise (Python 3.7+ insertion-order semantics). -/
def dictSet {β : Type} (d : List (Nat × β)) (k : Nat) (v : β) : List (Nat × β) :=
  if d.any (fun p => p.1 == k) then d.map (fun p => if p.1 == k then (k, v) else p)
  else d ++ [(k, v)]

/-- Embeds `Room.__init__`: state of one game room.  `players` is the ordered dict
`{sock: username}`, `viewers` the viewer socket list, `board` the nine
cells (`'0'` empty, `'1'`/`'2'` markers), `current_turn` the socket whose
move is next (`None` until the game starts), `finished` the end flag. -/
structure Room where
  name : String
  players : List (Nat × String)
  viewers : List Nat
  board : List Char
  current_turn : Option Nat
  finished : Bool
  deriving DecidableEq, Repr

namespace Room

/-- Embeds `Room.is_full`. -/
def is_full (r : Room) : Bool := r.players.length == 2

/-- Embeds `Room.has_player`: `client_sock in self.players` (dict key membership). -/
def has_player (r : Room) (client : Nat) : Bool :=
  r.players.any (fun p => p.1 == client)

/-- Embeds `Room.get_opposing_player`:
`[sock for sock in self.players if sock != self.current_turn][0]`.
Returns the first player socket different from the current-turn holder;
an empty comprehension raises `IndexError` (`none`). -/
def get_opposing_player (r : Room) : Option Nat :=
  (r.players.map Prod.fst).find? (fun s => !(some s == r.current_turn))

/-- Embeds `Room.add_player`: when fewer than two players, performs the
dict assignment `self.players[client_sock] = username` — overwriting the
entry in place when the socket is already a key, appending otherwise. -/
def add_player (r : Room) (client : Nat) (username : String) : Room :=
  if r.players.length < 2 then { r with players := dictSet r.players client username }
  else r

/-- Embeds `Room.add_viewer`. -/
def add_viewer (r : Room) (client : Nat) : Room :=
  { r with viewers := r.viewers ++ [client] }

/-- Embeds `Room.check_winner`: the mover's marker fills one of the eight
hard-coded win positions (three rows, three columns, two diagonals). -/
def check_winner (board : List Char) (marker : Char) : Bool :=
  let win_positions : List (List Nat) :=
    [[0, 1, 2], [3, 4, 5], [6, 7, 8],
     [0, 3, 6], [1, 4, 7], [2, 5, 8],
     [0, 4, 8], [2, 4, 6]]
  win_positions.any (fun positions => positions.all (fun i => board.getD i ' ' == marker))

/-- Embeds `Room.start_game`: when full, sets `current_turn` to the first-joined
player and sends `BEGIN:<player1>:<player2>` to all players then all
viewers.  Returns the updated room and the messages sent. -/
def start_game (r : Room) : Room × List Msg :=
  if r.is_full then
    match r.players with
    | [(s1, u1), (s2, u2)] =>
        let message := "BEGIN:" ++ u1 ++ ":" ++ u2 ++ "\n"
        let r' := { r with current_turn := some s1 }
        (r', ([s1, s2] ++ r.viewers).map (fun s => (s, message)))
    | _ => (r, [])
  else (r, [])

/-- Embeds `Room.broadcast_board_status`: sends `BOARDSTATUS:<board>` to all
players then all viewers; afterwards evaluates
`self.players[self.current_turn]` and
`self.players[self.get_opposing_player()]` (dead stores in the source,
but each subscript can raise `KeyError`/`IndexError`). -/
def broadcast_board_status (r : Room) : Except PyErr (List Msg) :=
  let board_status := String.mk r.board
  let message := "BOARDSTATUS:" ++ board_status ++ "\n"
  let msgs := (r.players.map Prod.fst ++ r.viewers).map (fun s => (s, message))
  match r.current_turn with
  | none => .error .keyError
  | some ct =>
    match dictGet? r.players ct with
    | none => .error .keyError
    | some _ =>
      match r.get_opposing_player with
      | none => .error .indexError
      | some op =>
        match dictGet? r.players op with
        | none => .error .keyError
        | some _ => .ok msgs

/-- The wire text built by `Room.broadcast_game_end`.  `if forfeit` wins,
then `elif winner:` — Python truthiness, so `None` and the empty string
both fall to the draw branch. -/
def gameEndMessage (board_status : String) (winner : Option String) (forfeit : Bool) : String :=
  if forfeit then
    "GAMEEND:" ++ board_status ++ ":2:" ++ (match winner with | some w => w | none => "None") ++ "\n"
  else
    match winner with
    | some w =>
        if w = "" then "GAMEEND:" ++ board_status ++ ":1\n"
        else "GAMEEND:" ++ board_status ++ ":0:" ++ w ++ "\n"
    | none => "GAMEEND:" ++ board_status ++ ":1\n"

/-- Embeds `Room.broadcast_game_end`: sends the end-of-match message to all
players then all viewers, marks the room finished, and runs
`cleanup_room` (clears the membership sets; the directory deletion
`del self.server.rooms[self.name]` is applied by the server-level
callers below, which filter the room's name out of the directory).
Returns the room after cleanup and the messages sent. -/
def broadcast_game_end (r : Room) (winner : Option String) (forfeit : Bool) : Room × List Msg :=
  let board_status := String.mk r.board
  let message := gameEndMessage board_status winner forfeit
  let msgs := (r.players.map Prod.fst ++ r.viewers).map (fun s => (s, message))
  ({ r with finished := true, players := [], viewers := [] }, msgs)

/-- Result of `Room.forfeit_game`. -/
inductive ForfeitResult where
  | notice (msgs : List Msg)
  | done (r : Room) (msgs : List Msg)
  | err (e : PyErr)
  deriving DecidableEq, Repr

/-- Embeds `Room.forfeit_game`: a finished room answers `GAMEEND` to the caller;
otherwise the winner is `self.players[self.get_opposing_player()]` —
note: the player opposing the CURRENT TURN holder, not the forfeiter —
and the game ends with the forfeit flag. -/
def forfeit_game (r : Room) (client : Nat) : ForfeitResult :=
  if r.finished then .notice [(client, "GAMEEND\n")]
  else
    match r.get_opposing_player with
    | none => .err .indexError
    | some winner_sock =>
      match dictGet? r.players winner_sock with
      | none => .err .keyError
      | some winner =>
        let (r', msgs) := r.broadcast_game_end (some winner) true
        .done r' msgs

/-- Result of `Room.place_marker`.  `moved r removed msgs`: the move was
applied; `removed` is true when the game ended (so `cleanup_room` ran and
the room leaves the directory). -/
inductive PlaceResult where
  | notice (msgs : List Msg)
  | outOfTurn (msgs : List Msg)
  | moved (r : Room) (removed : Bool) (msgs : List Msg)
  | err (e : PyErr)
  deriving DecidableEq, Repr

/-- Embeds `Room.place_marker`: finished rooms answer `GAMEEND`; an out-of-turn
caller gets the board re-broadcast and the move is dropped; otherwise
`x, y = int(args[0]), int(args[1])`, `index = y*3+x`, the mover's marker
(`'1'` for the first-joined player, `'2'` otherwise) is written with no
occupancy or range check, then win / draw / turn-flip. -/
def place_marker (r : Room) (client : Nat) (args : List String) : PlaceResult :=
  if r.finished then .notice [(client, "GAMEEND\n")]
  else if !(some client == r.current_turn) then
    match r.broadcast_board_status with
    | .error e => .err e
    | .ok msgs => .outOfTurn msgs
  else
    match args.get? 0 with
    | none => .err .indexError
    | some a0 =>
      match pyInt? a0 with
      | none => .err .valueError
      | some x =>
        match args.get? 1 with
        | none => .err .indexError
        | some a1 =>
          match pyInt? a1 with
          | none => .err .valueError
          | some y =>
            let index : Int := y * 3 + x
            match (r.players.map Prod.fst).head? with
            | none => .err .indexError
            | some first =>
              let marker : Char := if client == first then '1' else '2'
              match pySet? r.board index marker with
              | none => .err .indexError
              | some board' =>
                let r1 := { r with board := board' }
                if check_winner board' marker then
                  match dictGet? r1.players client with
                  | none => .err .keyError
                  | some winner =>
                    let (r2, msgs) := r1.broadcast_game_end (some winner) false
                    .moved r2 true msgs
                else if !(board'.contains '0') then
                  let (r2, msgs) := r1.broadcast_game_end none false
                  .moved r2 true msgs
                else
                  match r1.broadcast_board_status with
                  | .error e => .err e
                  | .ok msgs =>
                    match r1.get_opposing_player with
                    | none => .err .indexError
                    | some op => .moved { r1 with current_turn := some op } false msgs

end Room

/-- One record of the JSON user database: username and stored password
hash. -/
structure User where
  username : String
  password : String
  deriving DecidableEq, Repr

/-- The mutable server state of `TicTacToeServer`: the authenticated-users
dict `{socket: username}`, the room directory `{room_name: Room}` (an
insertion-ordered dict), and the user database. -/
structure ServerState where
  authenticated_users : List (Nat × String)
  rooms : List (String × Room)
  user_db : List User
  deriving DecidableEq, Repr

namespace TicTacToeServer

/-- Abstracts `bcrypt.checkpw`, an external collaborator; handlers take it as a
parameter `checkpw password stored_hash`. -/
abbrev CheckPw := String → String → Bool

/-- Embeds the check `client_sock in self.authenticated_users` (dict key membership). -/
def is_authenticated (st : ServerState) (client : Nat) : Bool :=
  st.authenticated_users.any (fun p => p.1 == client)

/-- Embeds `TicTacToeServer.handle_login`: malformed argument count → ack 3;
unknown user → ack 1; wrong password → ack 2; success → ack 0 and the
connection's entry in `authenticated_users` is (over)written with the
supplied username — there is no already-logged-in check. -/
def handle_login (checkpw : CheckPw) (st : ServerState) (client : Nat)
    (args : List String) : ServerState × List Msg :=
  if args.length ≠ 2 then (st, [(client, "LOGIN:ACKSTATUS:3\n")])
  else
    let username := args.getD 0 ""
    let password := args.getD 1 ""
    match st.user_db.find? (fun u => u.username == username) with
    | some user =>
        if checkpw password user.password then
          ({ st with authenticated_users := dictSet st.authenticated_users client username },
           [(client, "LOGIN:ACKSTATUS:0\n")])
        else (st, [(client, "LOGIN:ACKSTATUS:2\n")])
    | none => (st, [(client, "LOGIN:ACKSTATUS:1\n")])

/-- Embeds `TicTacToeServer.is_valid_room_name`: ≤ 20 characters, all
alphanumeric / dash / underscore / space.  (Defined in the source but
never called by `handle_create_room`.) -/
def is_valid_room_name (room_name : String) : Bool :=
  if room_name.length > 20 ∨ ¬ (room_name.toList.all (fun c => c.isAlphanum ∨ c ∈ ['-', '_', ' '])) then
    false
  else true

/-- Embeds `TicTacToeServer.handle_create_room`: unauthenticated → `BADAUTH`;
wrong argument count → ack 4; a name with a character outside
alphanumeric / dash / underscore / space → ack 1 (note: no length check —
`is_valid_room_name` is never consulted); duplicate name → ack 2;
directory full (≥ 256) → ack 3; otherwise the room is created with the
caller as first player and ack 0 is sent. -/
def handle_create_room (st : ServerState) (client : Nat)
    (args : List String) : ServerState × List Msg :=
  if ¬ is_authenticated st client then (st, [(client, "BADAUTH\n")])
  else if args.length ≠ 1 then (st, [(client, "CREATE:ACKSTATUS:4\n")])
  else
    let room_name := args.getD 0 ""
    if ¬ (room_name.toList.all (fun c => c.isAlphanum ∨ c ∈ ['-', '_', ' '])) then
      (st, [(client, "CREATE:ACKSTATUS:1\n")])
    else if st.rooms.any (fun p => p.1 == room_name) then
      (st, [(client, "CREATE:ACKSTATUS:2\n")])
    else if st.rooms.length ≥ 256 then
      (st, [(client, "CREATE:ACKSTATUS:3\n")])
    else
      let username := (dictGet? st.authenticated_users client).getD ""
      let new_room : Room :=
        { name := room_name, players := [], viewers := [], board := List.replicate 9 '0',
          current_turn := none, finished := false }
      let new_room := new_room.add_player client username
      ({ st with rooms := st.rooms ++ [(room_name, new_room)] },
       [(client, "CREATE:ACKSTATUS:0\n")])

/-- Embeds `TicTacToeServer.handle_roomlist`: unauthenticated → `BADAUTH`; bad
mode → ack 1; else the names of the recruiting rooms (PLAYER mode) or all
rooms (VIEWER mode), sorted and comma-joined. -/
def handle_roomlist (st : ServerState) (client : Nat)
    (args : List String) : ServerState × List Msg :=
  if ¬ is_authenticated st client then (st, [(client, "BADAUTH\n")])
  else if args.length ≠ 1 ∨ pyUpper (args.getD 0 "") ∉ ["PLAYER", "VIEWER"] then
    (st, [(client, "ROOMLIST:ACKSTATUS:1\n")])
  else
    let mode := pyUpper (args.getD 0 "")
    let room_list := (st.rooms.map Prod.snd).filterMap
      (fun room => if (mode = "PLAYER" ∧ ¬ room.is_full) ∨ mode = "VIEWER" then some room.name else none)
    let room_list_str := String.intercalate "," (pySorted room_list)
    (st, [(client, "ROOMLIST:ACKSTATUS:0:" ++ room_list_str ++ "\n")])

/-- Embeds `TicTacToeServer.handle_join_room`: unauthenticated → `BADAUTH`; bad
shape/mode → ack 3; unknown room → ack 1; PLAYER into a full room → ack 2;
PLAYER otherwise → ack 0, the player is added and, if the room is now
full, `start_game` runs; VIEWER → ack 0, the viewer is added and a full
room additionally reports `INPROGRESS:<turn user>:<opposing user>` (each
subscript can raise if the room is full but unstarted). -/
def handle_join_room (st : ServerState) (client : Nat)
    (args : List String) : Except PyErr (ServerState × List Msg) :=
  if ¬ is_authenticated st client then .ok (st, [(client, "BADAUTH\n")])
  else if args.length ≠ 2 ∨ pyUpper (args.getD 1 "") ∉ ["PLAYER", "VIEWER"] then
    .ok (st, [(client, "JOIN:ACKSTATUS:3\n")])
  else
    let room_name := args.getD 0 ""
    let mode := args.getD 1 ""
    match (st.rooms.find? (fun p => p.1 == room_name)).map Prod.snd with
    | none => .ok (st, [(client, "JOIN:ACKSTATUS:1\n")])
    | some room =>
      if pyUpper mode = "PLAYER" then
        if room.is_full then .ok (st, [(client, "JOIN:ACKSTATUS:2\n")])
        else
          let username := (dictGet? st.authenticated_users client).getD ""
          let room := room.add_player client username
          let (room, beginMsgs) := if room.is_full then room.start_game else (room, [])
          .ok ({ st with rooms := st.rooms.map (fun p => if p.1 == room_name then (room_name, room) else p) },
               (client, "JOIN:ACKSTATUS:0\n") :: beginMsgs)
      else
        let room := room.add_viewer client
        let st' := { st with rooms := st.rooms.map (fun p => if p.1 == room_name then (room_name, room) else p) }
        if room.is_full then
          match room.current_turn with
          | none => .error .keyError
          | some ct =>
            match dictGet? room.players ct with
            | none => .error .keyError
            | some current_turn_user =>
              match room.get_opposing_player with
              | none => .error .indexError
              | some op =>
                match dictGet? room.players op with
                | none => .error .keyError
                | some opposing_user =>
                  .ok (st', [(client, "JOIN:ACKSTATUS:0\n"),
                             (client, "INPROGRESS:" ++ current_turn_user ++ ":" ++ opposing_user ++ "\n")])
        else .ok (st', [(client, "JOIN:ACKSTATUS:0\n")])

/-- Embeds the deletion `del self.server.rooms[self.name]` performed by `Room.cleanup_room`:
drop the finished room's name from the directory. -/
def removeRoom (rooms : List (String × Room)) (name : String) : List (String × Room) :=
  rooms.filter (fun p => p.1 ≠ name)

/-- Embeds `TicTacToeServer.handle_place`: unauthenticated → `BADAUTH`; otherwise
the first room holding the caller as player processes the move (a game
that ends removes the room from the directory via `cleanup_room`);
no such room → `NOROOM`.  A Python exception inside `place_marker`
propagates (`.error`) and aborts the server. -/
def handle_place (st : ServerState) (client : Nat)
    (args : List String) : Except PyErr (ServerState × List Msg) :=
  if ¬ is_authenticated st client then .ok (st, [(client, "BADAUTH\n")])
  else
    match st.rooms.find? (fun p => p.2.has_player client) with
    | none => .ok (st, [(client, "NOROOM\n")])
    | some (name, room) =>
      match room.place_marker client args with
      | .notice msgs => .ok (st, msgs)
      | .outOfTurn msgs => .ok (st, msgs)
      | .moved room' removed msgs =>
          let rooms' :=
            if removed then removeRoom st.rooms room.name
            else st.rooms.map (fun p => if p.1 == name then (name, room') else p)
          .ok ({ st with rooms := rooms' }, msgs)
      | .err e => .error e

/-- Embeds `TicTacToeServer.handle_forfeit`: unauthenticated → `BADAUTH`;
otherwise the first room holding the caller as player processes the
forfeit (which removes the room); no such room → `NOROOM`. -/
def handle_forfeit (st : ServerState) (client : Nat) :
    Except PyErr (ServerState × List Msg) :=
  if ¬ is_authenticated st client then .ok (st, [(client, "BADAUTH\n")])
  else
    match st.rooms.find? (fun p => p.2.has_player client) with
    | none => .ok (st, [(client, "NOROOM\n")])
    | some (_, room) =>
      match room.forfeit_game client with
      | .notice msgs => .ok (st, msgs)
      | .done room' msgs =>
          .ok ({ st with rooms := removeRoom st.rooms room'.name }, msgs)
      | .err e => .error e

/-- Embeds `TicTacToeServer.handle_client_disconnect`: the first room holding the
disconnected socket as player processes a forfeit; the socket is then
unregistered and closed (no change to `authenticated_users`). -/
def handle_client_disconnect (st : ServerState) (client : Nat) :
    Except PyErr (ServerState × List Msg) :=
  match st.rooms.find? (fun p => p.2.has_player client) with
  | none => .ok (st, [])
  | some (_, room) =>
    match room.forfeit_game client with
    | .notice msgs => .ok (st, msgs)
    | .done room' msgs =>
        .ok ({ st with rooms := removeRoom st.rooms room'.name }, msgs)
    | .err e => .error e

/-- Embeds `TicTacToeServer.process_request`: the WHOLE received chunk is
stripped and split on `:` as a single command — there is no splitting on
newlines — and dispatched on its first field.  (`handle_register` mutates
the external credential store; the claims here never reach it, and it is
represented by its acknowledgements only.) -/
def process_request (checkpw : CheckPw) (st : ServerState) (client : Nat)
    (request : String) : Except PyErr (ServerState × List Msg) :=
  let command := pySplit (pyStrip request) ':' 
  match command.head? with
  | none => .ok (st, [(client, "Unknown command\n")])
  | some head =>
    if head = "LOGIN" then .ok (handle_login checkpw st client command.tail)
    else if head = "REGISTER" then
      if command.tail.length ≠ 2 then .ok (st, [(client, "REGISTER:ACKSTATUS:2\n")])
      else if st.user_db.any (fun u => u.username == command.tail.getD 0 "") then
        .ok (st, [(client, "REGISTER:ACKSTATUS:1\n")])
      else
        .ok ({ st with user_db := st.user_db ++
                [{ username := command.tail.getD 0 "", password := command.tail.getD 1 "" }] },
             [(client, "REGISTER:ACKSTATUS:0\n")])
    else if head = "ROOMLIST" then .ok (handle_roomlist st client command.tail)
    else if head = "CREATE" then .ok (handle_create_room st client command.tail)
    else if head = "JOIN" then handle_join_room st client command.tail
    else if head = "PLACE" then handle_place st client command.tail
    else if head = "FORFEIT" then handle_forfeit st client
    else .ok (st, [(client, "Unknown command\n")])

end TicTacToeServer

open TicTacToeServer

/-! ## Spec-side definitions (for refinement statements) -/

/-- The eight winning triples exactly as the spec words them: the three
rows, the three columns, and the two diagonals of the nine cells. -/
def specWinningTriples : List (List Nat) :=
  [[0, 1, 2], [3, 4, 5], [6, 7, 8]] ++
  [[0, 3, 6], [1, 4, 7], [2, 5, 8]] ++
  [[0, 4, 8], [2, 4, 6]]

/-- The spec's winning condition: the marker occupies some winning triple. -/
def fillsWinningTriple (board : List Char) (marker : Char) : Prop :=
  ∃ t ∈ specWinningTriples, ∀ i ∈ t, board.getD i ' ' = marker

instance (board : List Char) (marker : Char) : Decidable (fillsWinningTriple board marker) := by
  unfold fillsWinningTriple; infer_instance

/-! ## Concrete fixtures used by counterexamples and witnesses -/

/-- An in-progress room: alice (socket 1) joined first and holds the turn,
bob (socket 2) second, one viewer (socket 5), empty board. -/
def arenaRoom : Room :=
  { name := "Arena", players := [(1, "alice"), (2, "bob")], viewers := [5],
    board := List.replicate 9 '0', current_turn := some 1, finished := false }

/-- Server state holding `arenaRoom`, with alice and bob logged in. -/
def arenaState : ServerState :=
  { authenticated_users := [(1, "alice"), (2, "bob")],
    rooms := [("Arena", arenaRoom)],
    user_db := [⟨"alice", "pw#h"⟩, ⟨"bob", "pw#h"⟩] }

/-- Variant of `arenaRoom` two moves from the end: alice to move, top row `1 1 _`. -/
def winRoom : Room := { arenaRoom with board := "110220000".toList }

/-- A fresh state with only carol (socket 3) logged in and no rooms. -/
def carolState : ServerState :=
  { authenticated_users := [(3, "carol")], rooms := [], user_db := [] }

/-- A 25-character alphanumeric room name (over the 20-character limit). -/
def longName : String := "aaaaaaaaaaaaaaaaaaaaaaaaa"

/-- A concrete stand-in for `bcrypt.checkpw`: a password matches a stored
hash when the stored hash is the password suffixed with `#h`. -/
def sampleCheckPw : CheckPw := fun password stored => password ++ "#h" == stored

/-- A state with no authenticated users, no rooms, and one registered
user alice. -/
def freshState : ServerState :=
  { authenticated_users := [], rooms := [],
    user_db := [⟨"alice", "pw#h"⟩] }

/-- A waiting room: only alice (socket 1) has joined; one viewer. -/
def halfRoom : Room :=
  { name := "Arena", players := [(1, "alice")], viewers := [5],
    board := List.replicate 9 '0', current_turn := none, finished := false }

/-- Server state holding `halfRoom`, with alice and bob logged in. -/
def halfState : ServerState :=
  { authenticated_users := [(1, "alice"), (2, "bob")],
    rooms := [("Arena", halfRoom)],
    user_db := [⟨"alice", "pw#h"⟩, ⟨"bob", "pw#h"⟩] }

/-! ## Claim theorems -/

/-- C1: the claim says forfeit always declares the player who did NOT
forfeit the winner, regardless of whether the forfeiter holds the turn.
The code instead awards the win to `get_opposing_player()` — the player
opposing the CURRENT-TURN holder.  Evaluated at the failing input: in
`arenaRoom`, alice (socket 1) holds the turn and bob (socket 2, username
"bob") forfeits — both directly and via disconnect — yet every GAMEEND
message names "bob", the forfeiting player, as the winner. -/
theorem c1_forfeit_by_non_turn_holder_names_forfeiter_winner :
    arenaRoom.current_turn = some 1 ∧
    dictGet? arenaRoom.players 2 = some "bob" ∧
    arenaRoom.forfeit_game 2 =
      .done { arenaRoom with finished := true, players := [], viewers := [] }
        [(1, "GAMEEND:000000000:2:bob\n"), (2, "GAMEEND:000000000:2:bob\n"),
         (5, "GAMEEND:000000000:2:bob\n")] ∧
    handle_client_disconnect arenaState 2 =
      .ok ({ arenaState with rooms := [] },
        [(1, "GAMEEND:000000000:2:bob\n"), (2, "GAMEEND:000000000:2:bob\n"),
         (5, "GAMEEND:000000000:2:bob\n")]) := by
  refine ⟨by decide, by decide, by decide, by decide⟩

/-- C3: the claim says PLACE commands with non-numeric or out-of-range
coordinates are rejected gracefully (malformed ack / upstream rejection)
and processing never aborts the server.  In the code `handle_place`
forwards the raw fields to `place_marker`, whose `int(args[0])` raises
`ValueError` on non-numeric input and whose `self.board[index] = marker`
raises `IndexError` for index ≥ 9; neither exception is caught anywhere
below `KeyboardInterrupt`, so the server process aborts.  Evaluated at
the failing inputs `PLACE:a:0` and `PLACE:0:5` sent by the current-turn
player of `arenaRoom`. -/
theorem c3_invalid_place_coordinates_raise_uncaught_exception :
    handle_place arenaState 1 ["a", "0"] = .error .valueError ∧
    handle_place arenaState 1 ["0", "5"] = .error .indexError ∧
    process_request sampleCheckPw arenaState 1 "PLACE:a:0\n" = .error .valueError ∧
    process_request sampleCheckPw arenaState 1 "PLACE:0:5\n" = .error .indexError := by
  refine ⟨by decide, by decide, by decide, by decide⟩

/-- C6: the claim says a CREATE whose room name is longer than 20
characters is answered with `CREATE:ACKSTATUS:1` and no room is added.
`handle_create_room` only checks the character rule and never the length
(the length check lives in `is_valid_room_name`, which is never called),
so a 25-character alphanumeric name — rejected by the server's own
`is_valid_room_name` — is accepted with ack 0 and the room is created. -/
theorem c6_overlong_room_name_accepted :
    longName.length = 25 ∧
    is_valid_room_name longName = false ∧
    (handle_create_room carolState 3 [longName]).2 = [(3, "CREATE:ACKSTATUS:0\n")] ∧
    (handle_create_room carolState 3 [longName]).1.rooms.map Prod.fst = [longName] := by
  refine ⟨by decide, by decide, by decide, by decide⟩

/-- C8: the claim says a chunk containing several newline-terminated
commands is decoded and processed command by command.  `process_request`
instead strips and splits the WHOLE chunk on `:` as one field list, so
`"LOGIN:alice:pw\nROOMLIST:PLAYER\n"` becomes the single command
`["LOGIN", "alice", "pw\nROOMLIST", "PLAYER"]` — three arguments, hence
`LOGIN:ACKSTATUS:3` — and the ROOMLIST is never executed, although each
command sent in its own chunk succeeds. -/
theorem c8_chunk_with_two_commands_merged_into_one :
    pySplit (pyStrip "LOGIN:alice:pw\nROOMLIST:PLAYER\n") ':' =
      ["LOGIN", "alice", "pw\nROOMLIST", "PLAYER"] ∧
    process_request sampleCheckPw freshState 4 "LOGIN:alice:pw\nROOMLIST:PLAYER\n" =
      .ok (freshState, [(4, "LOGIN:ACKSTATUS:3\n")]) ∧
    process_request sampleCheckPw freshState 4 "LOGIN:alice:pw\n" =
      .ok ({ freshState with authenticated_users := [(4, "alice")] },
           [(4, "LOGIN:ACKSTATUS:0\n")]) ∧
    process_request sampleCheckPw
        { freshState with authenticated_users := [(4, "alice")] } 4 "ROOMLIST:PLAYER\n" =
      .ok ({ freshState with authenticated_users := [(4, "alice")] },
           [(4, "ROOMLIST:ACKSTATUS:0:\n")]) := by
  refine ⟨by decide, by decide, by decide, by decide⟩

/-! ## Helper lemmas -/

/-- An in-range non-negative Python list assignment is `List.set`. -/
theorem pySet?_of_nonneg (l : List Char) (i : Int) (c : Char)
    (h0 : 0 ≤ i) (h1 : i < (l.length : Int)) :
    pySet? l i c = some (l.set i.toNat c) := by
  simp only [pySet?]
  rw [if_neg (by omega : ¬ i < 0), if_pos ⟨h0, h1⟩]

/-- Central run lemma: the exact result of `place_marker` for a move by
the current-turn holder of an in-progress two-player room with in-range
coordinates — a win broadcast, a draw broadcast, or a board-status
broadcast with the turn flipped. -/
theorem place_marker_run (r : Room) (s1 s2 mover : Nat) (u1 u2 a0 a1 : String) (x y : Int)
    (hp : r.players = [(s1, u1), (s2, u2)]) (hne : s1 ≠ s2)
    (hf : r.finished = false) (hb : r.board.length = 9)
    (ht : r.current_turn = some mover) (hm : mover = s1 ∨ mover = s2)
    (h0 : pyInt? a0 = some x) (h1 : pyInt? a1 = some y)
    (hx0 : 0 ≤ x) (hx2 : x ≤ 2) (hy0 : 0 ≤ y) (hy2 : y ≤ 2)
    (hu : (if mover == s1 then u1 else u2) ≠ "") :
    r.place_marker mover [a0, a1] =
      (let marker : Char := if mover == s1 then '1' else '2'
       let board' := r.board.set (y * 3 + x).toNat marker
       if Room.check_winner board' marker then
         .moved { r with board := board', finished := true, players := [], viewers := [] } true
           (([s1, s2] ++ r.viewers).map (fun s =>
             (s, "GAMEEND:" ++ String.mk board' ++ ":0:" ++ (if mover == s1 then u1 else u2) ++ "\n")))
       else if !board'.contains '0' then
         .moved { r with board := board', finished := true, players := [], viewers := [] } true
           (([s1, s2] ++ r.viewers).map (fun s => (s, "GAMEEND:" ++ String.mk board' ++ ":1\n")))
       else
         .moved { r with board := board', current_turn := some (if mover == s1 then s2 else s1) } false
           (([s1, s2] ++ r.viewers).map (fun s => (s, "BOARDSTATUS:" ++ String.mk board' ++ "\n")))) := by
  have hidx0 : 0 ≤ y * 3 + x := by omega
  have hidx9 : y * 3 + x < (r.board.length : Int) := by rw [hb]; push_cast; omega
  unfold Room.place_marker
  rw [hf, ht]
  simp only [Bool.false_eq_true, if_false, beq_self_eq_true, Bool.not_true,
    Bool.false_eq_true, if_false, List.get?]
  simp only [h0, h1, hp, List.map, List.head?, pySet?_of_nonneg _ _ _ hidx0 hidx9]
  rcases hm with h | h
  · have e1 : (mover == s1) = true := by simp [h]
    have e1s : (s1 == mover) = true := by simp [h.symm]
    have e2 : (s2 == mover) = false := by simp [h, Ne.symm hne]
    have e3 : (mover == s2) = false := by simp [h, hne]
    have o1 : ((some s1 == some mover) : Bool) = true := by simp [h.symm]
    have o2 : ((some s2 == some mover) : Bool) = false := by simp [h, Ne.symm hne]
    have e4 : (s1 == s2) = false := by simp [hne]
    have e5 : (s2 == s1) = false := by simp [Ne.symm hne]
    simp only [e1, if_true] at hu ⊢
    split
    · simp only [dictGet?, List.find?, e1s, Option.map,
        Room.broadcast_game_end, Room.gameEndMessage, Bool.false_eq_true, if_false,
        List.map, if_neg hu]
    · split
      · simp only [Room.broadcast_game_end, Room.gameEndMessage, Bool.false_eq_true, if_false,
          List.map]
      · simp only [Room.broadcast_board_status, Room.get_opposing_player, dictGet?,
          List.find?, List.map, e1s, e2, e3, e4, e5, o1, o2, Option.map, beq_self_eq_true,
          Bool.not_true, Bool.not_false]
  · have e1 : (mover == s1) = false := by simp [h, Ne.symm hne]
    have e1s : (s1 == mover) = false := by simp [h, hne]
    have e2 : (s2 == mover) = true := by simp [h.symm]
    have e3 : (mover == s2) = true := by simp [h]
    have o1 : ((some s1 == some mover) : Bool) = false := by simp [h, hne]
    have o2 : ((some s2 == some mover) : Bool) = true := by simp [h.symm]
    have e4 : (s1 == s2) = false := by simp [hne]
    have e5 : (s2 == s1) = false := by simp [Ne.symm hne]
    simp only [e1, Bool.false_eq_true, if_false] at hu ⊢
    split
    · simp only [dictGet?, List.find?, e1s, e2, Option.map,
        Room.broadcast_game_end, Room.gameEndMessage, Bool.false_eq_true, if_false,
        List.map, if_neg hu]
    · split
      · simp only [Room.broadcast_game_end, Room.gameEndMessage, Bool.false_eq_true, if_false,
          List.map]
      · simp only [Room.broadcast_board_status, Room.get_opposing_player, dictGet?,
          List.find?, List.map, e1s, e2, e3, e4, e5, o1, o2, Option.map, beq_self_eq_true,
          Bool.not_true, Bool.not_false]

/-- The hard-coded `check_winner` positions coincide with the spec's
eight winning triples (three rows, three columns, two diagonals). -/
theorem check_winner_iff_fillsWinningTriple (b : List Char) (m : Char) :
    Room.check_winner b m = true ↔ fillsWinningTriple b m := by
  simp [Room.check_winner, fillsWinningTriple, specWinningTriples,
    List.any_eq_true, List.all_eq_true]

/-- A win GAMEEND wire message is never equal to a draw GAMEEND wire
message, whatever the board text and winner name. -/
theorem winMessage_ne_drawMessage (bs nm : String) :
    "GAMEEND:" ++ bs ++ ":0:" ++ nm ++ "\n" ≠ "GAMEEND:" ++ bs ++ ":1\n" := by
  intro hEq
  have h2 : ("GAMEEND:" ++ bs ++ ":0:" ++ nm ++ "\n").data = ("GAMEEND:" ++ bs ++ ":1\n").data := by
    rw [hEq]
  simp [String.data_append, List.append_assoc] at h2

/-- C2: after the current-turn player places at in-range coordinates in an
in-progress two-player room, the match ends with a Win outcome naming the
mover (the GAMEEND `:0:<mover>` broadcast to every player and viewer, with
the room finished and removed) if and only if the mover's marker fills one
of the spec's eight winning triples (three rows, three columns, two
diagonals); and if no triple is filled but every cell of the resulting
board is non-empty, the match ends with the Draw outcome (`:1`) — a full
board with no winning triple yields Draw, never Win. -/
theorem c2_win_iff_winning_triple_and_full_board_draws
    (r : Room) (s1 s2 mover : Nat) (u1 u2 a0 a1 : String) (x y : Int)
    (hp : r.players = [(s1, u1), (s2, u2)]) (hne : s1 ≠ s2)
    (hf : r.finished = false) (hb : r.board.length = 9)
    (ht : r.current_turn = some mover) (hm : mover = s1 ∨ mover = s2)
    (h0 : pyInt? a0 = some x) (h1 : pyInt? a1 = some y)
    (hx0 : 0 ≤ x) (hx2 : x ≤ 2) (hy0 : 0 ≤ y) (hy2 : y ≤ 2)
    (hu : (if mover == s1 then u1 else u2) ≠ "") :
    ((∃ rm msgs, r.place_marker mover [a0, a1] = .moved rm true msgs ∧
        msgs = ([s1, s2] ++ r.viewers).map (fun s =>
          (s, "GAMEEND:" ++ String.mk (r.board.set (y * 3 + x).toNat
                (if mover == s1 then '1' else '2')) ++ ":0:" ++
              (if mover == s1 then u1 else u2) ++ "\n"))) ↔
      fillsWinningTriple
        (r.board.set (y * 3 + x).toNat (if mover == s1 then '1' else '2'))
        (if mover == s1 then '1' else '2')) ∧
    (¬ fillsWinningTriple
        (r.board.set (y * 3 + x).toNat (if mover == s1 then '1' else '2'))
        (if mover == s1 then '1' else '2') →
      (r.board.set (y * 3 + x).toNat (if mover == s1 then '1' else '2')).contains '0' = false →
      r.place_marker mover [a0, a1] =
        .moved { r with
                 board := r.board.set (y * 3 + x).toNat (if mover == s1 then '1' else '2'),
                 finished := true, players := [], viewers := [] } true
          (([s1, s2] ++ r.viewers).map (fun s =>
            (s, "GAMEEND:" ++ String.mk (r.board.set (y * 3 + x).toNat
                  (if mover == s1 then '1' else '2')) ++ ":1\n")))) := by
  have run := place_marker_run r s1 s2 mover u1 u2 a0 a1 x y hp hne hf hb ht hm
    h0 h1 hx0 hx2 hy0 hy2 hu
  simp only at run
  by_cases hw : Room.check_winner
      (r.board.set (y * 3 + x).toNat (if mover == s1 then '1' else '2'))
      (if mover == s1 then '1' else '2') = true
  · have hfill := (check_winner_iff_fillsWinningTriple _ _).mp hw
    refine ⟨⟨fun _ => hfill, fun _ => ?_⟩, fun hnf _ => absurd hfill hnf⟩
    rw [run, if_pos hw]
    exact ⟨_, _, rfl, rfl⟩
  · have hnf : ¬ fillsWinningTriple
        (r.board.set (y * 3 + x).toNat (if mover == s1 then '1' else '2'))
        (if mover == s1 then '1' else '2') :=
      fun hfl => hw ((check_winner_iff_fillsWinningTriple _ _).mpr hfl)
    refine ⟨⟨?_, fun hfl => absurd hfl hnf⟩, fun _ hcont => ?_⟩
    · rintro ⟨rm, msgs, hres, hmsgs⟩
      rw [run, if_neg hw] at hres
      by_cases hd : (!(r.board.set (y * 3 + x).toNat
          (if mover == s1 then '1' else '2')).contains '0') = true
      · rw [if_pos hd] at hres
        have hmeq := (Room.PlaceResult.moved.injEq _ _ _ _ _ _).mp hres.symm
        have : ([s1, s2] ++ r.viewers).map (fun s =>
            (s, "GAMEEND:" ++ String.mk (r.board.set (y * 3 + x).toNat
                  (if mover == s1 then '1' else '2')) ++ ":0:" ++
                (if mover == s1 then u1 else u2) ++ "\n")) =
          ([s1, s2] ++ r.viewers).map (fun s =>
            (s, "GAMEEND:" ++ String.mk (r.board.set (y * 3 + x).toNat
                  (if mover == s1 then '1' else '2')) ++ ":1\n")) := by
          rw [← hmsgs, hmeq.2.2]
        simp only [List.map, List.cons.injEq, Prod.mk.injEq] at this
        exact absurd this.1.2 (winMessage_ne_drawMessage _ _)
      · rw [if_neg hd] at hres
        have := (Room.PlaceResult.moved.injEq _ _ _ _ _ _).mp hres.symm
        exact absurd this.2.1 (by decide)
    · rw [run, if_neg hw, if_pos (by rw [hcont]; rfl)]

/-- Witness for C2: alice completes the top row of `winRoom`. -/
theorem c2_win_iff_winning_triple_and_full_board_draws_witness :
    ∃ rm msgs, winRoom.place_marker 1 ["2", "0"] = .moved rm true msgs ∧
      msgs = ([1, 2] ++ winRoom.viewers).map (fun s =>
        (s, "GAMEEND:" ++ String.mk (winRoom.board.set (((0 : Int)) * 3 + 2).toNat
              (if (1 : Nat) == 1 then '1' else '2')) ++ ":0:" ++
            (if (1 : Nat) == 1 then "alice" else "bob") ++ "\n")) :=
  (c2_win_iff_winning_triple_and_full_board_draws winRoom 1 2 1 "alice" "bob" "2" "0" 2 0 (by decide) (by decide) (by decide)
    (by decide) (by decide) (Or.inl rfl) (by decide) (by decide) (by decide) (by decide)
    (by decide) (by decide) (by decide)).1.mpr (by decide)

/-- C4: when the current-turn holder of an in-progress two-player room
places at coordinates (column x, row y) with both in [0,2] on an empty
cell, exactly one board cell changes — the cell at index y*3+x receives
the mover's marker and differs from its previous (empty) content while
every other index keeps its previous content — and turn ownership flips
to the other player unless the move ended the match in a win or a full
board (draw). -/
theorem c4_place_mutates_one_cell_and_flips_turn
    (r : Room) (s1 s2 mover : Nat) (u1 u2 a0 a1 : String) (x y : Int)
    (hp : r.players = [(s1, u1), (s2, u2)]) (hne : s1 ≠ s2)
    (hf : r.finished = false) (hb : r.board.length = 9)
    (ht : r.current_turn = some mover) (hm : mover = s1 ∨ mover = s2)
    (h0 : pyInt? a0 = some x) (h1 : pyInt? a1 = some y)
    (hx0 : 0 ≤ x) (hx2 : x ≤ 2) (hy0 : 0 ≤ y) (hy2 : y ≤ 2)
    (hu : (if mover == s1 then u1 else u2) ≠ "")
    (hempty : r.board.getD (y * 3 + x).toNat ' ' = '0') :
    ∃ rm removed msgs, r.place_marker mover [a0, a1] = .moved rm removed msgs ∧
      rm.board = r.board.set (y * 3 + x).toNat (if mover == s1 then '1' else '2') ∧
      rm.board.getD (y * 3 + x).toNat ' ' = (if mover == s1 then '1' else '2') ∧
      rm.board.getD (y * 3 + x).toNat ' ' ≠ r.board.getD (y * 3 + x).toNat ' ' ∧
      (∀ j, j ≠ (y * 3 + x).toNat → rm.board.getD j ' ' = r.board.getD j ' ') ∧
      (removed = false → rm.current_turn = some (if mover == s1 then s2 else s1)) ∧
      (removed = true →
        Room.check_winner rm.board (if mover == s1 then '1' else '2') = true ∨
        rm.board.contains '0' = false) := by
  have run := place_marker_run r s1 s2 mover u1 u2 a0 a1 x y hp hne hf hb ht hm
    h0 h1 hx0 hx2 hy0 hy2 hu
  simp only at run
  have hidx : (y * 3 + x).toNat < r.board.length := by rw [hb]; omega
  have hset : (r.board.set (y * 3 + x).toNat (if mover == s1 then '1' else '2')).getD
      (y * 3 + x).toNat ' ' = (if mover == s1 then '1' else '2') := by
    simp [List.getD, List.getElem?_set_self, hidx]
  have hother : ∀ j, j ≠ (y * 3 + x).toNat →
      (r.board.set (y * 3 + x).toNat (if mover == s1 then '1' else '2')).getD j ' ' =
      r.board.getD j ' ' := by
    intro j hj
    simp [List.getD, List.getElem?_set_ne (Ne.symm hj)]
  have hchar : (if mover == s1 then '1' else '2') ≠ '0' := by
    rcases Bool.eq_false_or_eq_true (mover == s1) with hcase | hcase <;> simp [hcase]
  rw [run]
  by_cases hw : Room.check_winner
      (r.board.set (y * 3 + x).toNat (if mover == s1 then '1' else '2'))
      (if mover == s1 then '1' else '2') = true
  · rw [if_pos hw]
    refine ⟨_, _, _, rfl, rfl, hset, ?_, hother, fun h => absurd h (by decide), fun _ => Or.inl hw⟩
    rw [hset, hempty]; exact hchar
  · rw [if_neg hw]
    by_cases hd : (!(r.board.set (y * 3 + x).toNat
        (if mover == s1 then '1' else '2')).contains '0') = true
    · rw [if_pos hd]
      refine ⟨_, _, _, rfl, rfl, hset, ?_, hother, fun h => absurd h (by decide),
        fun _ => Or.inr (by simpa using hd)⟩
      rw [hset, hempty]; exact hchar
    · rw [if_neg hd]
      refine ⟨_, _, _, rfl, rfl, hset, ?_, hother, fun _ => rfl, fun h => absurd h (by decide)⟩
      rw [hset, hempty]; exact hchar

/-- Witness for C4: alice places at (0,0) in `arenaRoom`. -/
theorem c4_place_mutates_one_cell_and_flips_turn_witness :
    ∃ rm removed msgs, arenaRoom.place_marker 1 ["0", "0"] = .moved rm removed msgs ∧
      rm.board = arenaRoom.board.set (((0 : Int)) * 3 + 0).toNat (if (1 : Nat) == 1 then '1' else '2') ∧
      rm.board.getD (((0 : Int)) * 3 + 0).toNat ' ' = (if (1 : Nat) == 1 then '1' else '2') ∧
      rm.board.getD (((0 : Int)) * 3 + 0).toNat ' ' ≠ arenaRoom.board.getD (((0 : Int)) * 3 + 0).toNat ' ' ∧
      (∀ j, j ≠ (((0 : Int)) * 3 + 0).toNat → rm.board.getD j ' ' = arenaRoom.board.getD j ' ') ∧
      (removed = false → rm.current_turn = some (if (1 : Nat) == 1 then 2 else 1)) ∧
      (removed = true →
        Room.check_winner rm.board (if (1 : Nat) == 1 then '1' else '2') = true ∨
        rm.board.contains '0' = false) :=
  c4_place_mutates_one_cell_and_flips_turn arenaRoom 1 2 1 "alice" "bob" "0" "0" 0 0 (by decide) (by decide) (by decide)
    (by decide) (by decide) (Or.inl rfl) (by decide) (by decide) (by decide) (by decide)
    (by decide) (by decide) (by decide) (by decide)

/-- C5: a PLACE issued (with any argument fields) by a player of an
in-progress room who is not the current-turn holder leaves the server
state — in particular the board and the current-turn holder — completely
unchanged, sends no error acknowledgement, and re-broadcasts the current
board as a BOARDSTATUS event to every player and viewer: the out-of-turn
move is silently ignored. -/
theorem c5_out_of_turn_place_silently_rebroadcasts
    (st : ServerState) (name : String) (r : Room) (client ct s1 s2 : Nat)
    (u1 u2 : String) (args : List String)
    (hauth : is_authenticated st client = true)
    (hfind : st.rooms.find? (fun p => p.2.has_player client) = some (name, r))
    (hp : r.players = [(s1, u1), (s2, u2)]) (hne : s1 ≠ s2)
    (hf : r.finished = false)
    (ht : r.current_turn = some ct) (hct : ct = s1 ∨ ct = s2)
    (hcl : client ≠ ct) :
    handle_place st client args =
      .ok (st, ([s1, s2] ++ r.viewers).map (fun s =>
        (s, "BOARDSTATUS:" ++ String.mk r.board ++ "\n"))) := by
  unfold handle_place
  rw [hfind]
  simp only [hauth, not_true, if_false, Bool.true_eq_false, ite_false]
  have hbeq : ((some client == r.current_turn) : Bool) = false := by
    rw [ht]; simp [hcl]
  unfold Room.place_marker
  rw [hf, hbeq]
  simp only [Bool.false_eq_true, if_false, Bool.not_false, if_true]
  unfold Room.broadcast_board_status
  rw [ht, hp]
  rcases hct with h | h
  · have e1s : (s1 == ct) = true := by simp [h.symm]
    have e2 : (s2 == ct) = false := by simp [h, Ne.symm hne]
    have o1 : ((some s1 == some ct) : Bool) = true := by simp [h.symm]
    have o2 : ((some s2 == some ct) : Bool) = false := by simp [h, Ne.symm hne]
    have e4 : (s1 == s2) = false := by simp [hne]
    have e5 : (s2 == s1) = false := by simp [Ne.symm hne]
    simp only [dictGet?, Room.get_opposing_player, ht, hp, List.find?, List.map, e1s, e2,
      o1, o2, e4, e5, Option.map, beq_self_eq_true, Bool.not_true, Bool.not_false]
  · have e1s : (s1 == ct) = false := by simp [h, hne]
    have e2 : (s2 == ct) = true := by simp [h.symm]
    have o1 : ((some s1 == some ct) : Bool) = false := by simp [h, hne]
    have o2 : ((some s2 == some ct) : Bool) = true := by simp [h.symm]
    have e4 : (s1 == s2) = false := by simp [hne]
    have e5 : (s2 == s1) = false := by simp [Ne.symm hne]
    simp only [dictGet?, Room.get_opposing_player, ht, hp, List.find?, List.map, e1s, e2,
      o1, o2, e4, e5, Option.map, beq_self_eq_true, Bool.not_true, Bool.not_false]

/-- Witness for C5: bob places out of turn in `arenaState`. -/
theorem c5_out_of_turn_place_silently_rebroadcasts_witness :
    handle_place arenaState 2 ["0", "0"] =
      .ok (arenaState, ([1, 2] ++ arenaRoom.viewers).map (fun s =>
        (s, "BOARDSTATUS:" ++ String.mk arenaRoom.board ++ "\n"))) :=
  c5_out_of_turn_place_silently_rebroadcasts arenaState "Arena" arenaRoom 2 1 1 2 "alice" "bob" ["0", "0"] (by decide)
    (by decide) (by decide) (by decide) (by decide) (by decide) (Or.inl rfl) (by decide)

/-- Every game-end wire message is the GAMEEND tag followed by the board
snapshot and an outcome-specific tail. -/
theorem gameEndMessage_shape (bs : String) (w : Option String) (f : Bool) :
    ∃ tail, Room.gameEndMessage bs w f = "GAMEEND:" ++ (bs ++ tail) := by
  cases f with
  | true =>
      refine ⟨":2:" ++ ((match w with | some a => a | none => "None") ++ "\n"), ?_⟩
      simp [Room.gameEndMessage, String.append_assoc]
  | false =>
      cases w with
      | none => exact ⟨":1\n", by simp [Room.gameEndMessage, String.append_assoc]⟩
      | some wv =>
          by_cases hw : wv = ""
          · exact ⟨":1\n", by simp [Room.gameEndMessage, hw, String.append_assoc]⟩
          · exact ⟨":0:" ++ (wv ++ "\n"),
              by simp [Room.gameEndMessage, hw, String.append_assoc]⟩

/-- Shape of `broadcast_game_end`: the room keeps its name and board, is
marked finished with cleared membership sets, and the sends are exactly
one GAMEEND message to each player and then each viewer. -/
theorem broadcast_game_end_shape (r : Room) (w : Option String) (f : Bool) :
    (r.broadcast_game_end w f).1.name = r.name ∧
    (r.broadcast_game_end w f).1.finished = true ∧
    (r.broadcast_game_end w f).1.players = [] ∧
    (r.broadcast_game_end w f).1.viewers = [] ∧
    (r.broadcast_game_end w f).1.board = r.board ∧
    ∃ tail, (r.broadcast_game_end w f).2 = (r.players.map Prod.fst ++ r.viewers).map
      (fun s => (s, "GAMEEND:" ++ (String.mk r.board ++ tail))) := by
  obtain ⟨tail, htail⟩ := gameEndMessage_shape (String.mk r.board) w f
  exact ⟨rfl, rfl, rfl, rfl, rfl, tail, by simp [Room.broadcast_game_end, htail]⟩

/-- Any placement that reports the game ended (removed flag) went through
`broadcast_game_end`: the surviving room object is finished with cleared
memberships, and exactly one GAMEEND message carrying the final board was
sent to each player and each viewer. -/
theorem place_moved_true_shape (r : Room) (client : Nat) (args : List String)
    (r' : Room) (m : List Msg)
    (h : r.place_marker client args = .moved r' true m) :
    r'.name = r.name ∧ r'.finished = true ∧ r'.players = [] ∧ r'.viewers = [] ∧
    ∃ tail, m = (r.players.map Prod.fst ++ r.viewers).map
      (fun s => (s, "GAMEEND:" ++ (String.mk r'.board ++ tail))) := by
  unfold Room.place_marker at h
  repeat' (first | split at h | simp only [] at h)
  all_goals try cases h
  all_goals exact ⟨(broadcast_game_end_shape _ _ _).1, (broadcast_game_end_shape _ _ _).2.1,
    (broadcast_game_end_shape _ _ _).2.2.1, (broadcast_game_end_shape _ _ _).2.2.2.1,
    (broadcast_game_end_shape _ _ _).2.2.2.2.2⟩

/-- Any forfeit that actually ends a game went through
`broadcast_game_end`: finished room, cleared memberships, one GAMEEND
message per player and viewer. -/
theorem forfeit_done_shape (r : Room) (client : Nat) (r' : Room) (m : List Msg)
    (h : r.forfeit_game client = .done r' m) :
    r'.name = r.name ∧ r'.finished = true ∧ r'.players = [] ∧ r'.viewers = [] ∧
    ∃ tail, m = (r.players.map Prod.fst ++ r.viewers).map
      (fun s => (s, "GAMEEND:" ++ (String.mk r'.board ++ tail))) := by
  unfold Room.forfeit_game at h
  by_cases hf : r.finished = true
  · rw [if_pos hf] at h; cases h
  · rw [if_neg hf] at h
    rcases hop : r.get_opposing_player with _ | op
    · simp only [hop] at h; cases h
    · simp only [hop] at h
      rcases hwin : dictGet? r.players op with _ | w
      · simp only [hwin] at h; cases h
      · simp only [hwin] at h
        injection h with h1 h2
        subst h1
        subst h2
        exact ⟨(broadcast_game_end_shape _ _ _).1, (broadcast_game_end_shape _ _ _).2.1,
          (broadcast_game_end_shape _ _ _).2.2.1, (broadcast_game_end_shape _ _ _).2.2.2.1,
          (broadcast_game_end_shape _ _ _).2.2.2.2.2⟩

/-- After `cleanup_room`'s directory deletion no surviving entry carries
the removed room's name (when keys agree with room names). -/
theorem removeRoom_excludes (rooms : List (String × Room)) (nm : String)
    (hkeys : ∀ p ∈ rooms, p.1 = p.2.name) :
    ∀ p ∈ removeRoom rooms nm, p.2.name ≠ nm := by
  intro p hpmem
  unfold removeRoom at hpmem
  rw [List.mem_filter] at hpmem
  have hk := hkeys p hpmem.1
  have hne := of_decide_eq_true hpmem.2
  rw [hk] at hne
  exact hne

/-- A name carried by no directory entry never appears in the room list
computed by `handle_roomlist`, for either mode. -/
theorem roomlist_excludes (rooms : List (String × Room)) (nm mode : String)
    (hno : ∀ p ∈ rooms, p.2.name ≠ nm) :
    nm ∉ (rooms.map Prod.snd).filterMap
      (fun room => if (mode = "PLAYER" ∧ ¬ room.is_full) ∨ mode = "VIEWER" then
        some room.name else none) := by
  intro hmem
  rw [List.mem_filterMap] at hmem
  obtain ⟨room, hroommem, heq⟩ := hmem
  rw [List.mem_map] at hroommem
  obtain ⟨p, hp, rfl⟩ := hroommem
  split at heq
  · exact hno p hp (Option.some.inj heq)
  · cases heq

/-- C7: whenever a room reaches the finished state — through a winning
placement, a draw placement, or a forfeit — exactly one GAMEEND event
carrying the final board snapshot (and the outcome tail, with the winner
name when applicable) is sent to every player and every viewer, the
room's player and viewer sets are cleared, it is marked finished, and at
the server level the room's name is removed from the directory, so it can
appear in no subsequent ROOMLIST computation over the resulting state. -/
theorem c7_finish_broadcasts_once_and_removes_room :
    (∀ (r : Room) (client : Nat) (args : List String) (r' : Room) (m : List Msg),
        (r.place_marker client args = .moved r' true m ∨ r.forfeit_game client = .done r' m) →
        r'.finished = true ∧ r'.players = [] ∧ r'.viewers = [] ∧
        ∃ tail, m = (r.players.map Prod.fst ++ r.viewers).map
          (fun s => (s, "GAMEEND:" ++ (String.mk r'.board ++ tail)))) ∧
    (∀ (st : ServerState) (client : Nat) (args : List String) (name : String)
        (room r' : Room) (m : List Msg),
        (∀ p ∈ st.rooms, p.1 = p.2.name) →
        is_authenticated st client = true →
        st.rooms.find? (fun p => p.2.has_player client) = some (name, room) →
        room.place_marker client args = .moved r' true m →
        handle_place st client args =
          .ok ({ st with rooms := removeRoom st.rooms room.name }, m) ∧
        (∀ p ∈ removeRoom st.rooms room.name, p.2.name ≠ room.name) ∧
        ∀ mode, room.name ∉ ((removeRoom st.rooms room.name).map Prod.snd).filterMap
          (fun rm => if (mode = "PLAYER" ∧ ¬ rm.is_full) ∨ mode = "VIEWER" then
            some rm.name else none)) ∧
    (∀ (st : ServerState) (client : Nat) (name : String) (room r' : Room) (m : List Msg),
        (∀ p ∈ st.rooms, p.1 = p.2.name) →
        is_authenticated st client = true →
        st.rooms.find? (fun p => p.2.has_player client) = some (name, room) →
        room.forfeit_game client = .done r' m →
        handle_forfeit st client =
          .ok ({ st with rooms := removeRoom st.rooms r'.name }, m) ∧
        r'.name = room.name ∧
        (∀ p ∈ removeRoom st.rooms r'.name, p.2.name ≠ r'.name) ∧
        ∀ mode, r'.name ∉ ((removeRoom st.rooms r'.name).map Prod.snd).filterMap
          (fun rm => if (mode = "PLAYER" ∧ ¬ rm.is_full) ∨ mode = "VIEWER" then
            some rm.name else none)) := by
  refine ⟨?_, ?_, ?_⟩
  · rintro r client args r' m (hpl | hff)
    · obtain ⟨-, h2, h3, h4, h5⟩ := place_moved_true_shape r client args r' m hpl
      exact ⟨h2, h3, h4, h5⟩
    · obtain ⟨-, h2, h3, h4, h5⟩ := forfeit_done_shape r client r' m hff
      exact ⟨h2, h3, h4, h5⟩
  · intro st client args name room r' m hkeys hauth hfind hplace
    have hno := removeRoom_excludes st.rooms room.name hkeys
    refine ⟨?_, hno, fun mode => roomlist_excludes _ _ mode hno⟩
    unfold handle_place
    rw [hfind]
    simp only [hauth, not_true, Bool.true_eq_false, if_false, ite_false, hplace, ite_true]
  · intro st client name room r' m hkeys hauth hfind hforfeit
    have hno := removeRoom_excludes st.rooms r'.name hkeys
    have hname := (forfeit_done_shape room client r' m hforfeit).1
    refine ⟨?_, hname, hno, fun mode => roomlist_excludes _ _ mode hno⟩
    unfold handle_forfeit
    rw [hfind]
    simp only [hauth, not_true, Bool.true_eq_false, if_false, ite_false, hforfeit, ite_true]

/-- Witness for C7: alice's winning move in `winRoom` yields one GAMEEND
per member and the cleared finished room. -/
theorem c7_finish_broadcasts_once_and_removes_room_witness :
    ({ name := "Arena", players := [], viewers := [], board := "111220000".toList,
       current_turn := some 1, finished := true } : Room).finished = true ∧
    ({ name := "Arena", players := [], viewers := [], board := "111220000".toList,
       current_turn := some 1, finished := true } : Room).players = [] ∧
    ({ name := "Arena", players := [], viewers := [], board := "111220000".toList,
       current_turn := some 1, finished := true } : Room).viewers = [] ∧
    ∃ tail, [((1 : Nat), "GAMEEND:111220000:0:alice\n"), (2, "GAMEEND:111220000:0:alice\n"),
             (5, "GAMEEND:111220000:0:alice\n")] =
      (winRoom.players.map Prod.fst ++ winRoom.viewers).map
        (fun s => (s, "GAMEEND:" ++ (String.mk
          ({ name := "Arena", players := [], viewers := [], board := "111220000".toList,
             current_turn := some 1, finished := true } : Room).board ++ tail))) :=
  c7_finish_broadcasts_once_and_removes_room.1 winRoom 1 ["2", "0"]
    { name := "Arena", players := [], viewers := [], board := "111220000".toList,
      current_turn := some 1, finished := true }
    [(1, "GAMEEND:111220000:0:alice\n"), (2, "GAMEEND:111220000:0:alice\n"),
     (5, "GAMEEND:111220000:0:alice\n")]
    (Or.inl (by decide))

/-- C9: when the second player joins a waiting room, the JOIN is
acknowledged, the room's current-turn holder becomes the first-joined
player, and a BEGIN event naming both usernames in join order is sent to
both players and every viewer; moreover, in any in-progress two-player
room, a placement by the first-joined player always writes Marker1
(`'1'`) and a placement by the second-joined player always writes
Marker2 (`'2'`), whichever of them holds the turn. -/
theorem c9_second_join_starts_game_first_player_moves_first
    (st : ServerState) (name : String) (r : Room) (client s1 : Nat) (u1 u2 : String)
    (hauth : is_authenticated st client = true)
    (huser : dictGet? st.authenticated_users client = some u2)
    (hfind : st.rooms.find? (fun p => p.1 == name) = some (name, r))
    (hp : r.players = [(s1, u1)]) (hcl : client ≠ s1) :
    handle_join_room st client [name, "PLAYER"] =
      .ok ({ st with rooms := st.rooms.map (fun p => if p.1 == name then
               (name, { r with
                          players := [(s1, u1), (client, u2)],
                          current_turn := some s1 }) else p) },
           (client, "JOIN:ACKSTATUS:0\n") ::
             ([s1, client] ++ r.viewers).map (fun s =>
               (s, "BEGIN:" ++ u1 ++ ":" ++ u2 ++ "\n"))) ∧
    (∀ (rr : Room) (t1 t2 : Nat) (v1 v2 b0 b1 : String) (xx yy : Int),
        rr.players = [(t1, v1), (t2, v2)] → t1 ≠ t2 → rr.finished = false →
        rr.board.length = 9 → pyInt? b0 = some xx → pyInt? b1 = some yy →
        0 ≤ xx → xx ≤ 2 → 0 ≤ yy → yy ≤ 2 → v1 ≠ "" → v2 ≠ "" →
        (rr.current_turn = some t1 →
          ∃ rm removed msgs, rr.place_marker t1 [b0, b1] = .moved rm removed msgs ∧
            rm.board = rr.board.set (yy * 3 + xx).toNat '1') ∧
        (rr.current_turn = some t2 →
          ∃ rm removed msgs, rr.place_marker t2 [b0, b1] = .moved rm removed msgs ∧
            rm.board = rr.board.set (yy * 3 + xx).toNat '2')) := by
  constructor
  · unfold handle_join_room
    simp only [hauth, not_true, Bool.true_eq_false, if_false, ite_false]
    have hget1 : ([name, "PLAYER"] : List String).getD 1 "" = "PLAYER" := rfl
    rw [if_neg (by push_neg; exact ⟨by simp, by rw [hget1]; decide⟩)]
    simp only [List.getD, List.get?, Option.getD, hfind, Option.map]
    rw [if_pos (show pyUpper "PLAYER" = "PLAYER" from by decide)]
    have hds : dictSet [(s1, u1)] client u2 = [(s1, u1), (client, u2)] := by
      simp [dictSet, Ne.symm hcl]
    simp only [huser, Option.getD, Room.add_player, Room.is_full, Room.start_game, hp, hds,
      List.length, List.cons_append, List.nil_append, List.singleton_append, List.map]
    norm_num
  · intro rr t1 t2 v1 v2 b0 b1 xx yy hpp hnet hff hbb h0' h1' hx0' hx2' hy0' hy2' hv1 hv2
    constructor
    · intro htt
      have run := place_marker_run rr t1 t2 t1 v1 v2 b0 b1 xx yy hpp hnet hff hbb htt
        (Or.inl rfl) h0' h1' hx0' hx2' hy0' hy2' (by simpa using hv1)
      simp only [beq_self_eq_true, if_true] at run
      rw [run]
      by_cases hw : Room.check_winner (rr.board.set (yy * 3 + xx).toNat '1') '1' = true
      · rw [if_pos hw]; exact ⟨_, _, _, rfl, rfl⟩
      · rw [if_neg hw]
        by_cases hd : (!(rr.board.set (yy * 3 + xx).toNat '1').contains '0') = true
        · rw [if_pos hd]; exact ⟨_, _, _, rfl, rfl⟩
        · rw [if_neg hd]; exact ⟨_, _, _, rfl, rfl⟩
    · intro htt
      have run := place_marker_run rr t1 t2 t2 v1 v2 b0 b1 xx yy hpp hnet hff hbb htt
        (Or.inr rfl) h0' h1' hx0' hx2' hy0' hy2'
        (by simp [(show (t2 == t1) = false by simp [Ne.symm hnet]), hv2])
      simp only [(show (t2 == t1) = false by simp [Ne.symm hnet]), Bool.false_eq_true,
        if_false] at run
      rw [run]
      by_cases hw : Room.check_winner (rr.board.set (yy * 3 + xx).toNat '2') '2' = true
      · rw [if_pos hw]; exact ⟨_, _, _, rfl, rfl⟩
      · rw [if_neg hw]
        by_cases hd : (!(rr.board.set (yy * 3 + xx).toNat '2').contains '0') = true
        · rw [if_pos hd]; exact ⟨_, _, _, rfl, rfl⟩
        · rw [if_neg hd]; exact ⟨_, _, _, rfl, rfl⟩

/-- Witness for C9: bob joins `halfRoom` as the second player. -/
theorem c9_second_join_starts_game_first_player_moves_first_witness :
    handle_join_room halfState 2 ["Arena", "PLAYER"] =
      .ok ({ halfState with rooms := halfState.rooms.map (fun p => if p.1 == "Arena" then
               ("Arena", { halfRoom with
                             players := [(1, "alice"), (2, "bob")],
                             current_turn := some 1 }) else p) },
           (2, "JOIN:ACKSTATUS:0\n") ::
             ([1, 2] ++ halfRoom.viewers).map (fun s =>
               (s, "BEGIN:" ++ "alice" ++ ":" ++ "bob" ++ "\n"))) :=
  (c9_second_join_starts_game_first_player_moves_first halfState "Arena" halfRoom 2 1
    "alice" "bob" (by decide) (by decide) (by decide) (by decide) (by decide)).1

/-- Updating an existing key in an ordered dict leaves the new value at
that key. -/
theorem find?_map_update {β : Type} (d : List (Nat × β)) (k : Nat) (v : β)
    (h : d.any (fun p => p.1 == k) = true) :
    (d.map (fun p => if p.1 == k then (k, v) else p)).find? (fun p => p.1 == k) =
      some (k, v) := by
  induction d with
  | nil => simp at h
  | cons p rest ih =>
      by_cases hpk : (p.1 == k) = true
      · rw [List.map_cons, if_pos hpk, List.find?_cons_of_pos _ (by simp)]
      · have hrest : rest.any (fun q => q.1 == k) = true := by
          simpa [List.any_cons, hpk] using h
        rw [List.map_cons, if_neg hpk, List.find?_cons_of_neg _ (by simpa using hpk)]
        exact ih hrest

/-- Python dict assignment followed by lookup of the same key yields the
assigned value. -/
theorem dictGet?_dictSet {β : Type} (d : List (Nat × β)) (k : Nat) (v : β) :
    dictGet? (dictSet d k v) k = some v := by
  unfold dictGet? dictSet
  by_cases hany : d.any (fun p => p.1 == k) = true
  · rw [if_pos hany, find?_map_update d k v hany]
    rfl
  · rw [if_neg hany]
    have hnone : d.find? (fun p => p.1 == k) = none := by
      rw [List.find?_eq_none]
      intro p hp hpk
      exact hany (List.any_eq_true.mpr ⟨p, hp, hpk⟩)
    rw [List.find?_append, hnone]
    simp [List.find?_cons]

/-- C10: a LOGIN with valid credentials from a connection that is already
authenticated (here as `oldname`) succeeds with `LOGIN:ACKSTATUS:0` and
silently overwrites the username stored for that connection with the
newly supplied one — re-authentication is never rejected
(`handle_login` has no already-logged-in check). -/
theorem c10_relogin_replaces_username (checkpw : CheckPw) (st : ServerState) (client : Nat)
    (oldname username password : String) (user : User)
    (hauth : dictGet? st.authenticated_users client = some oldname)
    (hfind : st.user_db.find? (fun u => u.username == username) = some user)
    (hpw : checkpw password user.password = true) :
    handle_login checkpw st client [username, password] =
      ({ st with authenticated_users := dictSet st.authenticated_users client username },
       [(client, "LOGIN:ACKSTATUS:0\n")]) ∧
    dictGet? (dictSet st.authenticated_users client username) client = some username := by
  refine ⟨?_, dictGet?_dictSet _ _ _⟩
  unfold handle_login
  rw [if_neg (by simp)]
  simp only [List.getD, List.get?, Option.getD, hfind, hpw, if_true]

/-- Witness for C10: socket 1, logged in as alice, re-logs-in as bob. -/
theorem c10_relogin_replaces_username_witness :
    handle_login sampleCheckPw arenaState 1 ["bob", "pw"] =
      ({ arenaState with
           authenticated_users := dictSet arenaState.authenticated_users 1 "bob" },
       [(1, "LOGIN:ACKSTATUS:0\n")]) ∧
    dictGet? (dictSet arenaState.authenticated_users 1 "bob") 1 = some "bob" :=
  c10_relogin_replaces_username sampleCheckPw arenaState 1 "alice" "bob" "pw" ⟨"bob", "pw#h"⟩
    (by decide) (by decide) (by decide)
